import Mathlib

/-!
Verification of the conceptOntology repository core (loader, query engine,
SHACL validator) against its natural-language specification.

The Python source under `src/ontology/` is shallowly embedded below:
pure string manipulation becomes Lean string/list functions, the loader's
mutable state becomes an explicit `LoaderState` threaded through calls, and
raising code returns `Except`/`Option` errors.  Wall-clock timestamps and
float percentage fields are not modelled (no claim mentions them); Python
`float` timeout constants (5.0 / 15.0 / 30.0) are modelled as exact
rationals.  Python string operations (`strip`, `upper`, `split`,
`startswith`, `in`, `count`, `join`) are modelled by structurally recursive
functions over character lists, which agree with Python's semantics on the
ASCII inputs this code manipulates; Python dicts become association lists
where the most recent binding wins.
-/

deriving instance DecidableEq for Except

/-- Left brace character, written via its code point. -/
def lbrace : Char := Char.ofNat 123

/-- Right brace character, written via its code point. -/
def rbrace : Char := Char.ofNat 125

/-- Double-quote character. -/
def dquote : Char := Char.ofNat 34

/-- Whitespace as Python's `str.strip` / `str.split()` see it: space, tab,
newline, carriage return, vertical tab, form feed. -/
def isPyWs (c : Char) : Bool :=
  c == ' ' || c == '\t' || c == '\n' || c == '\r' ||
    c == Char.ofNat 11 || c == Char.ofNat 12

/-- Python `s.strip()`: drop leading and trailing whitespace. -/
def pyStrip (s : String) : String :=
  String.mk (((s.toList.dropWhile isPyWs).reverse.dropWhile isPyWs).reverse)

/-- Python `s.upper()` on the ASCII text this code handles. -/
def pyUpper (s : String) : String :=
  String.mk (s.toList.map Char.toUpper)

/-- Python `s.count(c)` for a single character `c`. -/
def countChar (s : String) (c : Char) : Nat :=
  s.toList.count c

/-- Python `c in s` membership test for a single character. -/
def pyContainsChar (s : String) (c : Char) : Bool :=
  s.toList.contains c

/-- Python `s.startswith(p)`: `p` is a character-level prefix of `s`. -/
def pyStartsWith (s p : String) : Bool :=
  p.toList.isPrefixOf s.toList

/-- Python `s.endswith(p)`: `p` is a character-level suffix of `s`. -/
def pyEndsWith (s p : String) : Bool :=
  p.toList.isSuffixOf s.toList

/-- Occurrence test for a pattern inside a character list: the pattern is a
prefix of some suffix. -/
def listContainsSub (pat : List Char) : List Char → Bool
  | [] => pat.isEmpty
  | c :: rest => pat.isPrefixOf (c :: rest) || listContainsSub pat rest

/-- Python `p in s` substring test (used with nonempty patterns). -/
def containsSubstr (s p : String) : Bool :=
  listContainsSub p.toList s.toList

/-- Splitting a character list at every character satisfying `p`, keeping
empty parts, as Python `str.split(sep)` does for a one-character `sep`. -/
def splitPredAux (p : Char → Bool) : List Char → List Char → List (List Char)
  | cur, [] => [cur.reverse]
  | cur, c :: rest =>
    if p c then cur.reverse :: splitPredAux p [] rest
    else splitPredAux p (c :: cur) rest

/-- Python `s.split('\n')`. -/
def pySplitLines (s : String) : List String :=
  (splitPredAux (fun c => c == '\n') [] s.toList).map String.mk

/-- Python `s.split()` with no argument: split on whitespace runs,
dropping empty parts. -/
def pySplitWs (s : String) : List String :=
  ((splitPredAux isPyWs [] s.toList).filter (fun t => t ≠ [])).map String.mk

/-- Python `' '.join(parts)`. -/
def joinSpace (parts : List String) : String :=
  String.mk (List.intercalate [' '] (parts.map String.toList))

/-- Python `s.rstrip(cs)`: drop trailing characters satisfying `p`. -/
def pyRstrip (s : String) (p : Char → Bool) : String :=
  String.mk ((s.toList.reverse.dropWhile p).reverse)

/-- Python `s.lstrip(cs)`: drop leading characters satisfying `p`. -/
def pyLstrip (s : String) (p : Char → Bool) : String :=
  String.mk (s.toList.dropWhile p)

/-- Distinct elements of a list in first-occurrence order, as Python dict
keys accumulate while counting. -/
def dedupFirst (l : List String) : List String :=
  l.foldl (fun acc x => if acc.contains x then acc else acc ++ [x]) []

/-- Python `s.split(':', 1)` when a colon occurs in `s`: the text before
the first colon and everything after it. -/
def splitFirstColon (s : String) : String × String :=
  (String.mk (s.toList.takeWhile (fun c => !(c == ':'))),
   String.mk ((s.toList.dropWhile (fun c => !(c == ':'))).tail))

/-- Lookup in an association-list model of a Python dict: the most recent
binding for a key wins (insertion conses to the front). -/
def lookupNs (ns : List (String × String)) (k : String) : Option String :=
  (ns.find? (fun kv => kv.1 == k)).map (fun kv => kv.2)

/-- Python dict assignment `ns[k] = v`, modelled by shadowing. -/
def insertNs (ns : List (String × String)) (k v : String) : List (String × String) :=
  (k, v) :: ns

/-! ## Validator data model (`src/ontology/validator.py`) -/

/-- IRI constant `SeverityLevel.VIOLATION`. -/
def severityViolation : String := "http://www.w3.org/ns/shacl#Violation"

/-- IRI constant `SeverityLevel.WARNING`. -/
def severityWarning : String := "http://www.w3.org/ns/shacl#Warning"

/-- IRI constant `SeverityLevel.INFO`. -/
def severityInfo : String := "http://www.w3.org/ns/shacl#Info"

/-- One SHACL validation finding (`ValidationResult.__init__`); the
construction-time timestamp is not modelled. -/
structure ValidationResult where
  focus_node : String
  result_path : Option String
  value : Option String
  message : String
  severity : String
  source_constraint : Option String := none
  source_shape : Option String := none
deriving DecidableEq, Repr

/-- Aggregate SHACL validation report (`ValidationReport.__init__`); the
build timestamp is not modelled. -/
structure ValidationReport where
  conforms : Bool
  results : List ValidationResult := []
  shapes_loaded : List String := []
  data_sources : List String := []
deriving DecidableEq, Repr

/-- Embeds `ValidationReport.add_result`: append the result, and force
`conforms` to `False` when its severity is the Violation IRI. -/
def ValidationReport.add_result (rep : ValidationReport) (r : ValidationResult) :
    ValidationReport :=
  { rep with
    results := rep.results ++ [r]
    conforms := if r.severity == severityViolation then false else rep.conforms }

/-- Embeds `ValidationReport.get_results_by_severity`. -/
def ValidationReport.get_results_by_severity (rep : ValidationReport) (sev : String) :
    List ValidationResult :=
  rep.results.filter (fun r => r.severity == sev)

/-- Embeds `ValidationReport.get_violations`. -/
def ValidationReport.get_violations (rep : ValidationReport) : List ValidationResult :=
  rep.get_results_by_severity severityViolation

/-- Embeds `ValidationReport.get_warnings`. -/
def ValidationReport.get_warnings (rep : ValidationReport) : List ValidationResult :=
  rep.get_results_by_severity severityWarning

/-- Embeds `ValidationReport.get_info`. -/
def ValidationReport.get_info (rep : ValidationReport) : List ValidationResult :=
  rep.get_results_by_severity severityInfo

/-- Fields of the summary dict built by `SHACLValidator.get_summary` on top
of `ValidationReport.get_summary`; the timestamp and the two float
percentage fields are not modelled. -/
structure SummaryStats where
  conforms : Bool
  total_results : Nat
  violation_count : Nat
  warning_count : Nat
  info_count : Nat
  shapes_loaded : Nat
  data_sources : Nat
  affected_nodes : Nat
  most_affected_node : Option String
deriving DecidableEq, Repr

/-- Number of results whose focus node is `node`, as accumulated by the
`defaultdict(int)` loop in `SHACLValidator.get_summary`. -/
def focusCount (results : List ValidationResult) (node : String) : Nat :=
  (results.filter (fun r => r.focus_node == node)).length

/-- Embeds `max(focus_nodes.items(), key=...)[0]` over the insertion-ordered
dict: the first focus node attaining the maximal count, `none` when there
are no results. -/
def mostAffected (results : List ValidationResult) : Option String :=
  (dedupFirst (results.map (fun r => r.focus_node))).foldl
    (fun best n =>
      match best with
      | none => some n
      | some b => if focusCount results n > focusCount results b then some n else best)
    none

/-- Embeds `SHACLValidator.get_summary` composed with
`ValidationReport.get_summary`. -/
def validatorGetSummary (rep : ValidationReport) : SummaryStats :=
  { conforms := rep.conforms
    total_results := rep.results.length
    violation_count := rep.get_violations.length
    warning_count := rep.get_warnings.length
    info_count := rep.get_info.length
    shapes_loaded := rep.shapes_loaded.length
    data_sources := rep.data_sources.length
    affected_nodes := (dedupFirst (rep.results.map (fun r => r.focus_node))).length
    most_affected_node := mostAffected rep.results }

/-! ## Claim C1 -/

/-- Helper: one `add_result` call never turns `conforms` from false back
to true. -/
theorem add_result_keeps_nonconforming (rep : ValidationReport) (r : ValidationResult)
    (h : rep.conforms = false) : (rep.add_result r).conforms = false := by
  simp only [ValidationReport.add_result, h]
  split <;> rfl

/-- Helper: a whole sequence of `add_result` calls never restores
`conforms`. -/
theorem add_results_keep_nonconforming (rep : ValidationReport)
    (rs : List ValidationResult) (h : rep.conforms = false) :
    (rs.foldl ValidationReport.add_result rep).conforms = false := by
  induction rs generalizing rep with
  | nil => exact h
  | cons r rs ih =>
    exact ih _ (add_result_keeps_nonconforming rep r h)

/-- C1: adding a Violation-severity result forces `conforms` to false, and
it stays false under any further sequence of `add_result` calls; every
`add_result` call grows `results` by exactly one; adding a Warning- or
Info-severity result never changes `conforms`. -/
theorem C1_conforms_invariant :
    (∀ (rep : ValidationReport) (r : ValidationResult),
      r.severity = severityViolation → (rep.add_result r).conforms = false) ∧
    (∀ (rep : ValidationReport) (r : ValidationResult) (rs : List ValidationResult),
      r.severity = severityViolation →
      ((rs.foldl ValidationReport.add_result (rep.add_result r))).conforms = false) ∧
    (∀ (rep : ValidationReport) (r : ValidationResult),
      (rep.add_result r).results.length = rep.results.length + 1) ∧
    (∀ (rep : ValidationReport) (r : ValidationResult),
      r.severity = severityWarning ∨ r.severity = severityInfo →
      (rep.add_result r).conforms = rep.conforms) := by
  refine ⟨?_, ?_, ?_, ?_⟩
  · intro rep r h
    simp [ValidationReport.add_result, h]
  · intro rep r rs h
    apply add_results_keep_nonconforming
    simp [ValidationReport.add_result, h]
  · intro rep r
    simp [ValidationReport.add_result]
  · intro rep r h
    have hne : r.severity ≠ severityViolation := by
      rcases h with h | h <;> rw [h] <;> decide
    simp [ValidationReport.add_result, hne]

/-- Witness for C1 at a concrete report and concrete results. -/
theorem C1_conforms_invariant_witness :
    (({ conforms := true } : ValidationReport).add_result
        { focus_node := "n", result_path := none, value := none,
          message := "m", severity := severityViolation }).conforms = false ∧
    ([({ focus_node := "n", result_path := none, value := none,
         message := "m", severity := severityWarning } : ValidationResult)].foldl
        ValidationReport.add_result
        (({ conforms := true } : ValidationReport).add_result
          { focus_node := "n", result_path := none, value := none,
            message := "m", severity := severityViolation })).conforms = false ∧
    (({ conforms := false } : ValidationReport).add_result
        { focus_node := "n", result_path := none, value := none,
          message := "m", severity := severityInfo }).conforms = false := by
  refine ⟨?_, ?_, ?_⟩
  · exact C1_conforms_invariant.1 _ _ rfl
  · exact C1_conforms_invariant.2.1 { conforms := true } _ _ rfl
  · have := C1_conforms_invariant.2.2.2 { conforms := false }
      { focus_node := "n", result_path := none, value := none,
        message := "m", severity := severityInfo } (Or.inr rfl)
    simpa using this

/-! ## Query engine data model (`src/ontology/query.py`) -/

/-- Embeds the `QueryType` enumeration. -/
inductive QueryType where
  | SELECT
  | CONSTRUCT
  | ASK
  | DESCRIBE
  | UNKNOWN
deriving DecidableEq, Repr

/-- Comment stripping and normalization performed by
`SPARQLQueryEngine._detect_query_type`: strip and upper-case the query,
drop `#`-to-end-of-line text on each line, join with spaces and strip. -/
def cleanQuery (q : String) : String :=
  let qu := pyUpper (pyStrip q)
  pyStrip (joinSpace ((pySplitLines qu).map
    (fun l => String.mk (l.toList.takeWhile (fun c => !(c == '#'))))))

/-- Embeds `SPARQLQueryEngine._detect_query_type`: prefix-match the cleaned
query against the four SPARQL keywords, in source order. -/
def detectQueryType (q : String) : QueryType :=
  let c := cleanQuery q
  if pyStartsWith c "SELECT" then QueryType.SELECT
  else if pyStartsWith c "CONSTRUCT" then QueryType.CONSTRUCT
  else if pyStartsWith c "ASK" then QueryType.ASK
  else if pyStartsWith c "DESCRIBE" then QueryType.DESCRIBE
  else QueryType.UNKNOWN

/-- Spec-side definition (not from the source): the first
whitespace-delimited token of the cleaned query, as the claim's phrase
"first token" reads. -/
def firstTokenSpec (q : String) : String :=
  (pySplitWs (cleanQuery q)).headD ""

/-- Embeds `SPARQLQueryEngine._validate_query_syntax`; `some msg` models a
raised `QuerySyntaxError`, `none` a normal return.  The source's sequence
of raising `if` statements is an `if`-chain here. -/
def validateQuerySyntax (q : String) : Option String :=
  if pyStrip q = "" then some "Query cannot be empty"
  else if detectQueryType q = QueryType.UNKNOWN then
    some "Unknown query type. Query must start with SELECT, CONSTRUCT, ASK, or DESCRIBE"
  else if (detectQueryType q = QueryType.SELECT ∨ detectQueryType q = QueryType.CONSTRUCT) ∧
      containsSubstr (pyUpper q) "WHERE" = false then
    some "query must contain a WHERE clause"
  else if detectQueryType q = QueryType.ASK ∧ containsSubstr (pyUpper q) "WHERE" = false ∧
      pyContainsChar q lbrace = false then
    some "ASK query must contain a WHERE clause or graph pattern"
  else if countChar q lbrace ≠ countChar q rbrace then
    some "Unbalanced braces in query"
  else none

/-- Embeds `SPARQLQueryEngine._calculate_timeout`; the engine's
`default_timeout` float is modelled as an exact rational. -/
def calculateTimeout (defaultTimeout : ℚ) (tripleCount : Option Nat) : ℚ :=
  match tripleCount with
  | none => defaultTimeout
  | some n =>
    if n < 10000 then 5
    else if n < 100000 then 15
    else defaultTimeout

/-! ## Claim C2 -/

/-- C2: the timeout tiers of `_calculate_timeout` with the default
30-second timeout: 9999 triples give 5s, 10000 and 99999 give 15s, 100000
and an unknown count give the default; and in general counts below 10000
give 5s, counts in [10000, 100000) give 15s, and counts at or above 100000
give the configured default. -/
theorem C2_timeout_tiers :
    calculateTimeout 30 (some 9999) = 5 ∧
    calculateTimeout 30 (some 10000) = 15 ∧
    calculateTimeout 30 (some 99999) = 15 ∧
    calculateTimeout 30 (some 100000) = 30 ∧
    calculateTimeout 30 none = 30 ∧
    (∀ (d : ℚ) (n : Nat), n < 10000 → calculateTimeout d (some n) = 5) ∧
    (∀ (d : ℚ) (n : Nat), 10000 ≤ n → n < 100000 → calculateTimeout d (some n) = 15) ∧
    (∀ (d : ℚ) (n : Nat), 100000 ≤ n → calculateTimeout d (some n) = d) ∧
    (∀ (d : ℚ), calculateTimeout d none = d) := by
  refine ⟨by decide, by decide, by decide, by decide, rfl, ?_, ?_, ?_, fun _ => rfl⟩
  · intro d n h
    simp [calculateTimeout, h]
  · intro d n h1 h2
    simp [calculateTimeout, Nat.not_lt.mpr h1, h2]
  · intro d n h
    have h1 : ¬ n < 10000 := Nat.not_lt.mpr (le_trans (show (10000 : ℕ) ≤ 100000 by norm_num) h)
    have h2 : ¬ n < 100000 := Nat.not_lt.mpr h
    simp [calculateTimeout, h1, h2]

/-- Witness for C2: the general tier statements applied at concrete
counts. -/
theorem C2_timeout_tiers_witness :
    calculateTimeout 7 (some 123) = 5 ∧
    calculateTimeout 7 (some 50000) = 15 ∧
    calculateTimeout 7 (some 200000) = 7 := by
  refine ⟨?_, ?_, ?_⟩
  · exact C2_timeout_tiers.2.2.2.2.2.1 7 123 (by norm_num)
  · exact C2_timeout_tiers.2.2.2.2.2.2.1 7 50000 (by norm_num) (by norm_num)
  · exact C2_timeout_tiers.2.2.2.2.2.2.2.1 7 200000 (by norm_num)

/-! ## Claim C3 -/

/-- Helper: two character-list prefixes that disagree on their first
character cannot both be prefixes of the same list. -/
theorem isPrefixOf_head_ne {a b : Char} {t1 t2 l : List Char} (hab : a ≠ b)
    (h : (a :: t1).isPrefixOf l = true) : (b :: t2).isPrefixOf l = false := by
  cases l with
  | nil => simp [List.isPrefixOf] at h
  | cons c cs =>
    simp only [List.isPrefixOf, Bool.and_eq_true, beq_iff_eq] at h
    have hbc : b ≠ c := fun hb => hab (h.1.trans hb.symm)
    simp [List.isPrefixOf, hbc]

/-- Helper: a cleaned query starting with `ASK` does not start with
`SELECT`. -/
theorem ask_not_select {s : String} (h : pyStartsWith s "ASK" = true) :
    pyStartsWith s "SELECT" = false := by
  have ha : "ASK".toList = 'A' :: ['S', 'K'] := rfl
  have hs : "SELECT".toList = 'S' :: ['E', 'L', 'E', 'C', 'T'] := rfl
  unfold pyStartsWith at h ⊢
  rw [ha] at h
  rw [hs]
  exact isPrefixOf_head_ne (by decide) h

/-- Helper: a cleaned query starting with `ASK` does not start with
`CONSTRUCT`. -/
theorem ask_not_construct {s : String} (h : pyStartsWith s "ASK" = true) :
    pyStartsWith s "CONSTRUCT" = false := by
  have ha : "ASK".toList = 'A' :: ['S', 'K'] := rfl
  have hc : "CONSTRUCT".toList = 'C' :: ['O', 'N', 'S', 'T', 'R', 'U', 'C', 'T'] := rfl
  unfold pyStartsWith at h ⊢
  rw [ha] at h
  rw [hc]
  exact isPrefixOf_head_ne (by decide) h

/-- Helper: a cleaned query starting with `CONSTRUCT` does not start with
`SELECT`. -/
theorem construct_not_select {s : String} (h : pyStartsWith s "CONSTRUCT" = true) :
    pyStartsWith s "SELECT" = false := by
  have hc : "CONSTRUCT".toList = 'C' :: ['O', 'N', 'S', 'T', 'R', 'U', 'C', 'T'] := rfl
  have hs : "SELECT".toList = 'S' :: ['E', 'L', 'E', 'C', 'T'] := rfl
  unfold pyStartsWith at h ⊢
  rw [hc] at h
  rw [hs]
  exact isPrefixOf_head_ne (by decide) h

/-- Helper: a cleaned query starting with `DESCRIBE` starts with none of
the three other keywords. -/
theorem describe_not_others {s : String} (h : pyStartsWith s "DESCRIBE" = true) :
    pyStartsWith s "SELECT" = false ∧ pyStartsWith s "CONSTRUCT" = false ∧
      pyStartsWith s "ASK" = false := by
  have hd : "DESCRIBE".toList = 'D' :: ['E', 'S', 'C', 'R', 'I', 'B', 'E'] := rfl
  have hs : "SELECT".toList = 'S' :: ['E', 'L', 'E', 'C', 'T'] := rfl
  have hc : "CONSTRUCT".toList = 'C' :: ['O', 'N', 'S', 'T', 'R', 'U', 'C', 'T'] := rfl
  have ha : "ASK".toList = 'A' :: ['S', 'K'] := rfl
  unfold pyStartsWith at h ⊢
  rw [hd] at h
  refine ⟨?_, ?_, ?_⟩
  · rw [hs]; exact isPrefixOf_head_ne (by decide) h
  · rw [hc]; exact isPrefixOf_head_ne (by decide) h
  · rw [ha]; exact isPrefixOf_head_ne (by decide) h

/-- C3 (amended): classification is a total function of the query string
computed by prefix-matching the comment-stripped, upper-cased query against
the four keywords (so it is case-insensitive, and
`classify("ask where ...")` is Ask); a cleaned query starting with none of
the four keywords classifies as Unknown; and `validateSyntax` rejects every
query that classifies as Unknown. -/
theorem C3_classification :
    detectQueryType "ask where \x7b ?s ?p ?o \x7d" = QueryType.ASK ∧
    (∀ q : String, pyStartsWith (cleanQuery q) "SELECT" = true →
      detectQueryType q = QueryType.SELECT) ∧
    (∀ q : String, pyStartsWith (cleanQuery q) "CONSTRUCT" = true →
      detectQueryType q = QueryType.CONSTRUCT) ∧
    (∀ q : String, pyStartsWith (cleanQuery q) "ASK" = true →
      detectQueryType q = QueryType.ASK) ∧
    (∀ q : String, pyStartsWith (cleanQuery q) "DESCRIBE" = true →
      detectQueryType q = QueryType.DESCRIBE) ∧
    (∀ q : String,
      pyStartsWith (cleanQuery q) "SELECT" = false →
      pyStartsWith (cleanQuery q) "CONSTRUCT" = false →
      pyStartsWith (cleanQuery q) "ASK" = false →
      pyStartsWith (cleanQuery q) "DESCRIBE" = false →
      detectQueryType q = QueryType.UNKNOWN) ∧
    (∀ q : String, detectQueryType q = QueryType.UNKNOWN →
      (validateQuerySyntax q).isSome = true) := by
  refine ⟨by decide, ?_, ?_, ?_, ?_, ?_, ?_⟩
  · intro q h
    simp [detectQueryType, h]
  · intro q h
    simp [detectQueryType, h, construct_not_select h]
  · intro q h
    simp [detectQueryType, h, ask_not_select h, ask_not_construct h]
  · intro q h
    obtain ⟨h1, h2, h3⟩ := describe_not_others h
    simp [detectQueryType, h, h1, h2, h3]
  · intro q h1 h2 h3 h4
    simp [detectQueryType, h1, h2, h3, h4]
  · intro q h
    unfold validateQuerySyntax
    split_ifs <;> simp_all

/-- Witness for C3 at concrete queries of each kind. -/
theorem C3_classification_witness :
    detectQueryType "SELECT ?s WHERE \x7b ?s ?p ?o \x7d" = QueryType.SELECT ∧
    detectQueryType "construct \x7b ?s ?p ?o \x7d WHERE \x7b ?s ?p ?o \x7d" =
      QueryType.CONSTRUCT ∧
    detectQueryType "Ask \x7b ?s ?p ?o \x7d" = QueryType.ASK ∧
    detectQueryType "describe <http://example.org/x>" = QueryType.DESCRIBE ∧
    detectQueryType "frobnicate" = QueryType.UNKNOWN ∧
    (validateQuerySyntax "frobnicate").isSome = true := by
  refine ⟨?_, ?_, ?_, ?_, ?_, ?_⟩
  · exact C3_classification.2.1 _ (by decide)
  · exact C3_classification.2.2.1 _ (by decide)
  · exact C3_classification.2.2.2.1 _ (by decide)
  · exact C3_classification.2.2.2.2.1 _ (by decide)
  · exact C3_classification.2.2.2.2.2.1 _ (by decide) (by decide) (by decide) (by decide)
  · exact C3_classification.2.2.2.2.2.2 "frobnicate"
      (C3_classification.2.2.2.2.2.1 _ (by decide) (by decide) (by decide) (by decide))

/-- Counterexample for C3 as stated: the cleaned form of `"selectfoo"` has
first token `SELECTFOO`, which is none of the four keywords, yet the query
classifies as Select rather than Unknown, because the source prefix-matches
instead of comparing the first token. -/
theorem C3_first_token_counterexample :
    firstTokenSpec "selectfoo" = "SELECTFOO" ∧
    ("SELECTFOO" : String) ≠ "SELECT" ∧
    ("SELECTFOO" : String) ≠ "CONSTRUCT" ∧
    ("SELECTFOO" : String) ≠ "ASK" ∧
    ("SELECTFOO" : String) ≠ "DESCRIBE" ∧
    detectQueryType "selectfoo" = QueryType.SELECT ∧
    detectQueryType "selectfoo" ≠ QueryType.UNKNOWN := by
  refine ⟨by decide, by decide, by decide, by decide, by decide, by decide, by decide⟩

/-! ## Claim C4 -/

/-- C4: `_validate_query_syntax` raises exactly when the stripped query is
empty, or the query classifies as Unknown, or a Select/Construct query
lacks the case-insensitive substring `WHERE`, or an Ask query lacks both
`WHERE` and any left brace, or the two brace counts differ; otherwise it
returns normally. -/
theorem C4_validate_syntax_iff (q : String) :
    (validateQuerySyntax q).isSome = true ↔
      (pyStrip q = "" ∨
       detectQueryType q = QueryType.UNKNOWN ∨
       ((detectQueryType q = QueryType.SELECT ∨ detectQueryType q = QueryType.CONSTRUCT) ∧
         containsSubstr (pyUpper q) "WHERE" = false) ∨
       (detectQueryType q = QueryType.ASK ∧ containsSubstr (pyUpper q) "WHERE" = false ∧
         pyContainsChar q lbrace = false) ∨
       countChar q lbrace ≠ countChar q rbrace) := by
  unfold validateQuerySyntax
  split_ifs with h1 h2 h3 h4 h5 <;> simp_all

/-- Witness for C4: both directions at concrete queries — a Select query
without WHERE is rejected, and a well-formed Ask query is accepted. -/
theorem C4_validate_syntax_iff_witness :
    (validateQuerySyntax "SELECT ?s ?p ?o").isSome = true ∧
    ¬ (validateQuerySyntax "ask where \x7b ?s ?p ?o \x7d").isSome = true := by
  constructor
  · exact (C4_validate_syntax_iff "SELECT ?s ?p ?o").mpr
      (Or.inr (Or.inr (Or.inl (by refine ⟨Or.inl ?_, ?_⟩ <;> decide))))
  · intro hcontra
    have := (C4_validate_syntax_iff "ask where \x7b ?s ?p ?o \x7d").mp hcontra
    revert this
    decide

/-! ## Query execution (`SPARQLQueryEngine.execute` and the internal
evaluators) -/

/-- Embeds the query error taxonomy: `QuerySyntaxError`,
`QueryTimeoutError`, `QueryExecutionError`.  The source defines no other
query error kind (in particular none for unsupported formats). -/
inductive QueryError where
  | syntaxErr (msg : String)
  | timeoutErr (msg : String)
  | executionErr (msg : String)
deriving DecidableEq, Repr

/-- Placeholder SPARQL JSON result structure built by
`_execute_select_internal`: `head.vars` and `results.bindings`. -/
structure SparqlJsonResult where
  vars : List String
  bindings : List (List (String × String))
deriving DecidableEq, Repr

/-- The value shapes `execute` can return: a bindings list, a serialized
JSON string, the SPARQL JSON structure, a triple list, a boolean, or
Turtle text. -/
inductive QueryOutput where
  | pyBindings (b : List (List (String × String)))
  | jsonString (s : String)
  | sparqlJson (r : SparqlJsonResult)
  | pyTriples (t : List (String × String × String))
  | boolResult (b : Bool)
  | turtleString (s : String)
deriving DecidableEq, Repr

/-- The exact `json.dumps(results, indent=2)` text for the placeholder
SELECT result. -/
def selectJsonDump : String :=
  "\x7b\n  \"head\": \x7b\n    \"vars\": []\n  \x7d,\n  \"results\": \x7b\n    \"bindings\": []\n  \x7d\n\x7d"

/-- The exact `json.dumps({'triples': []}, indent=2)` text for the
placeholder CONSTRUCT/DESCRIBE result. -/
def triplesJsonDump : String :=
  "\x7b\n  \"triples\": []\n\x7d"

/-- Embeds `_execute_select_internal`: the placeholder result formatted per
`output_format`; the `turtle` branch raises `QueryExecutionError`, which
the surrounding `except Exception` handler re-wraps with the
`Error executing SELECT query:` prelude. -/
def executeSelectInternal (fmt : String) : Except QueryError QueryOutput :=
  if fmt = "json" then Except.ok (QueryOutput.jsonString selectJsonDump)
  else if fmt = "sparql_json" then Except.ok (QueryOutput.sparqlJson ⟨[], []⟩)
  else if fmt = "turtle" then
    Except.error (QueryError.executionErr
      "Error executing SELECT query: Turtle format not supported for SELECT queries")
  else Except.ok (QueryOutput.pyBindings [])

/-- Embeds `_execute_construct_internal`. -/
def executeConstructInternal (fmt : String) : Except QueryError QueryOutput :=
  if fmt = "json" then Except.ok (QueryOutput.jsonString triplesJsonDump)
  else if fmt = "turtle" then Except.ok (QueryOutput.turtleString "# Constructed triples\n")
  else Except.ok (QueryOutput.pyTriples [])

/-- Embeds `_execute_ask_internal`: no output-format parameter exists; the
placeholder returns `False`. -/
def executeAskInternal : Except QueryError QueryOutput :=
  Except.ok (QueryOutput.boolResult false)

/-- Embeds `_execute_describe_internal`. -/
def executeDescribeInternal (fmt : String) : Except QueryError QueryOutput :=
  if fmt = "json" then Except.ok (QueryOutput.jsonString triplesJsonDump)
  else if fmt = "turtle" then Except.ok (QueryOutput.turtleString "# Description triples\n")
  else Except.ok (QueryOutput.pyTriples [])

/-- Embeds `SPARQLQueryEngine.execute`: optional syntax validation, type
detection, timeout resolution via `_calculate_timeout` (bound but ignored
by the placeholder evaluators), and dispatch on the query type.
`tripleCount` models `rdf_loader.get_triple_count()` when a loader is set,
`none` otherwise. -/
def executeQuery (defaultTimeout : ℚ) (tripleCount : Option Nat) (q : String)
    (timeout : Option ℚ) (fmt : String) (validate : Bool) :
    Except QueryError QueryOutput :=
  match (if validate then validateQuerySyntax q else none) with
  | some e => Except.error (QueryError.syntaxErr e)
  | none =>
    let _resolvedTimeout : ℚ :=
      match timeout with
      | some t => t
      | none => calculateTimeout defaultTimeout tripleCount
    match detectQueryType q with
    | QueryType.SELECT => executeSelectInternal fmt
    | QueryType.CONSTRUCT => executeConstructInternal fmt
    | QueryType.ASK => executeAskInternal
    | QueryType.DESCRIBE => executeDescribeInternal fmt
    | QueryType.UNKNOWN =>
      Except.error (QueryError.syntaxErr "Unsupported query type: QueryType.UNKNOWN")

/-! ## Claim C7 -/

/-- C7 (amended): a SELECT query with requested format `turtle` fails with
the generic `QueryExecutionError` kind (its message naming the unsupported
Turtle format, wrapped by the internal exception handler), not with a
distinct unsupported-format error kind; an ASK query ignores the requested
output format entirely and `execute` returns its boolean placeholder
result without any error. -/
theorem C7_turtle_format :
    (∀ (q : String) (d : ℚ) (cnt : Option Nat) (tmo : Option ℚ),
      detectQueryType q = QueryType.SELECT → validateQuerySyntax q = none →
      executeQuery d cnt q tmo "turtle" true =
        Except.error (QueryError.executionErr
          "Error executing SELECT query: Turtle format not supported for SELECT queries")) ∧
    (∀ (q : String) (d : ℚ) (cnt : Option Nat) (tmo : Option ℚ),
      detectQueryType q = QueryType.ASK → validateQuerySyntax q = none →
      executeQuery d cnt q tmo "turtle" true =
        Except.ok (QueryOutput.boolResult false)) := by
  constructor <;>
    · intro q d cnt tmo hdet hval
      simp [executeQuery, hval, hdet, executeSelectInternal, executeAskInternal]

/-- Witness for C7 at concrete SELECT and ASK queries. -/
theorem C7_turtle_format_witness :
    executeQuery 30 none "select ?s where \x7b ?s ?p ?o \x7d" none "turtle" true =
      Except.error (QueryError.executionErr
        "Error executing SELECT query: Turtle format not supported for SELECT queries") ∧
    executeQuery 30 none "ASK WHERE \x7b ?s ?p ?o \x7d" none "turtle" true =
      Except.ok (QueryOutput.boolResult false) := by
  constructor
  · exact C7_turtle_format.1 _ 30 none none (by decide) (by decide)
  · exact C7_turtle_format.2 _ 30 none none (by decide) (by decide)

/-- Counterexample for C7 as stated: requesting `turtle` for an ASK query
is not rejected at all — `execute` succeeds and returns the boolean
placeholder result, because `_execute_ask_internal` takes no output-format
parameter. -/
theorem C7_ask_turtle_counterexample :
    executeQuery 30 none "ask where \x7b ?s ?p ?o \x7d" none "turtle" true =
      Except.ok (QueryOutput.boolResult false) ∧
    ∀ e : QueryError,
      executeQuery 30 none "ask where \x7b ?s ?p ?o \x7d" none "turtle" true ≠
        Except.error e := by
  refine ⟨by decide, ?_⟩
  intro e h
  have h2 : executeQuery 30 none "ask where \x7b ?s ?p ?o \x7d" none "turtle" true =
      Except.ok (QueryOutput.boolResult false) := by decide
  rw [h2] at h
  exact Except.noConfusion h

/-! ## Claim C8 -/

/-- C8: for a report built by adding one Violation result and one Warning
result with the same focus node (in either order) to a fresh report, the
validator summary has two total results, one violation, one warning, one
affected node, and `conforms = false`. -/
theorem C8_summary_two_results
    (c0 : Bool) (shapes data : List String) (v w : ValidationResult)
    (hv : v.severity = severityViolation) (hw : w.severity = severityWarning)
    (hf : v.focus_node = w.focus_node) :
    (validatorGetSummary
        ((({ conforms := c0, results := [], shapes_loaded := shapes,
             data_sources := data } : ValidationReport).add_result v).add_result w) =
      { conforms := false, total_results := 2, violation_count := 1,
        warning_count := 1, info_count := 0, shapes_loaded := shapes.length,
        data_sources := data.length, affected_nodes := 1,
        most_affected_node := some v.focus_node }) ∧
    (validatorGetSummary
        ((({ conforms := c0, results := [], shapes_loaded := shapes,
             data_sources := data } : ValidationReport).add_result w).add_result v) =
      { conforms := false, total_results := 2, violation_count := 1,
        warning_count := 1, info_count := 0, shapes_loaded := shapes.length,
        data_sources := data.length, affected_nodes := 1,
        most_affected_node := some v.focus_node }) := by
  have h1 : (severityViolation == severityViolation) = true := by decide
  have h2 : (severityWarning == severityViolation) = false := by decide
  have h3 : (severityViolation == severityWarning) = false := by decide
  have h4 : (severityWarning == severityWarning) = true := by decide
  have h5 : (severityViolation == severityInfo) = false := by decide
  have h6 : (severityWarning == severityInfo) = false := by decide
  constructor <;>
    simp [validatorGetSummary, ValidationReport.add_result,
      ValidationReport.get_violations, ValidationReport.get_warnings,
      ValidationReport.get_info, ValidationReport.get_results_by_severity,
      dedupFirst, mostAffected, focusCount, hv, hw, hf,
      h1, h2, h3, h4, h5, h6]

/-- Witness for C8 at a concrete violation/warning pair on the node
`ex:Alice`. -/
theorem C8_summary_two_results_witness :
    validatorGetSummary
        ((({ conforms := true, results := [], shapes_loaded := ["shapes.ttl"],
             data_sources := ["data.ttl"] } : ValidationReport).add_result
          { focus_node := "http://example.org/Alice", result_path := none,
            value := none, message := "too few values",
            severity := severityViolation }).add_result
          { focus_node := "http://example.org/Alice", result_path := none,
            value := none, message := "deprecated property",
            severity := severityWarning }) =
      { conforms := false, total_results := 2, violation_count := 1,
        warning_count := 1, info_count := 0, shapes_loaded := 1,
        data_sources := 1, affected_nodes := 1,
        most_affected_node := some "http://example.org/Alice" } := by
  exact (C8_summary_two_results true ["shapes.ttl"] ["data.ttl"]
    { focus_node := "http://example.org/Alice", result_path := none,
      value := none, message := "too few values", severity := severityViolation }
    { focus_node := "http://example.org/Alice", result_path := none,
      value := none, message := "deprecated property", severity := severityWarning }
    rfl rfl rfl).1

/-! ## Loader data model (`src/ontology/loader.py`) -/

/-- The three-quote sequence checked by the unclosed-string heuristic. -/
def tripleQuote : String := "\"\"\""

/-- Embeds the loader error taxonomy: `FileNotFoundError`,
`TurtleSyntaxError`, `NamespaceError`, and the base `RDFLoaderError` that
wraps read failures. -/
inductive LoaderErr where
  | fileNotFound (msg : String)
  | turtleSyntax (msg : String)
  | namespaceErr (msg : String)
  | loaderErr (msg : String)
deriving DecidableEq, Repr

/-- Line-by-line loop of `RDFLoader._validate_turtle_syntax`, carrying the
1-based line number; `some msg` models the first raised
`TurtleSyntaxError`.  Each line is stripped first, blank and comment lines
are skipped, then the odd-quote-count and `@prefix`-shape heuristics run
(a stripped line needs no further `rstrip` before the trailing-period
check). -/
def validateTurtleLines (filePath : String) : Nat → List String → Option String
  | _, [] => none
  | n, l :: rest =>
    if pyStrip l = "" || pyStartsWith (pyStrip l) "#" then
      validateTurtleLines filePath (n + 1) rest
    else if countChar (pyStrip l) dquote % 2 != 0 && !(pyEndsWith (pyStrip l) "\\") &&
        !(containsSubstr (pyStrip l) tripleQuote) then
      some ("Syntax error in " ++ filePath ++ " at line " ++ toString n ++ ": Unclosed string")
    else if pyStartsWith (pyStrip l) "@prefix" &&
        (decide ((pySplitWs (pyStrip l)).length < 3) ||
         !(pyStartsWith ((pySplitWs (pyStrip l)).getD 2 "") "<") ||
         !(pyEndsWith (pyStrip l) ".")) then
      some ("Syntax error in " ++ filePath ++ " at line " ++ toString n ++
        ": Invalid @prefix declaration")
    else validateTurtleLines filePath (n + 1) rest

/-- Embeds `RDFLoader._validate_turtle_syntax` on the file content. -/
def validateTurtleSyntax (content filePath : String) : Option String :=
  validateTurtleLines filePath 1 (pySplitLines content)

/-- Embeds `RDFLoader._extract_namespaces`: register
`parts[1].rstrip(':') -> parts[2].strip('<>').rstrip('.')` for every
stripped line starting with `@prefix` that splits into at least three
whitespace-separated parts. -/
def extractNamespaces (content : String) (ns : List (String × String)) :
    List (String × String) :=
  (pySplitLines content).foldl
    (fun acc l =>
      if pyStartsWith (pyStrip l) "@prefix" then
        if (pySplitWs (pyStrip l)).length ≥ 3 then
          insertNs acc
            (pyRstrip ((pySplitWs (pyStrip l)).getD 1 "") (fun c => c == ':'))
            (pyRstrip
              (pyRstrip
                (pyLstrip ((pySplitWs (pyStrip l)).getD 2 "")
                  (fun c => c == '<' || c == '>'))
                (fun c => c == '<' || c == '>'))
              (fun c => c == '.'))
        else acc
      else acc)
    ns

/-- Embeds `RDFLoader.resolve_uri`: inputs without a colon pass through;
otherwise the text before the first colon is looked up as a prefix, a
missing prefix raises `NamespaceError`, and a registered prefix expands by
concatenation with the rest of the input. -/
def resolveUri (ns : List (String × String)) (u : String) : Except LoaderErr String :=
  if pyContainsChar u ':' = false then Except.ok u
  else
    match lookupNs ns (splitFirstColon u).1 with
    | none =>
      Except.error (LoaderErr.namespaceErr
        ("Undefined namespace prefix: " ++ (splitFirstColon u).1))
    | some base => Except.ok (base ++ (splitFirstColon u).2)

/-- The loader's observable mutable state: the `triples` entries (each a
file/content record, as the source stores), the `loaded_files` list, and
the `namespaces` dict. -/
structure LoaderState where
  triples : List (String × String) := []
  loaded_files : List String := []
  namespaces : List (String × String) := []
deriving DecidableEq, Repr

/-- What the filesystem holds at a path, covering `load_file`'s error
paths: absent, present but not a regular file, unreadable, or readable
with the given text. -/
inductive FsEntry where
  | missing
  | notFile
  | readFail
  | file (content : String)
deriving DecidableEq, Repr

/-- The state mutations `load_file` performs after a successful read and
validation: namespace extraction, the `triples` append, and the
`loaded_files` append, in source order. -/
def commitLoad (st : LoaderState) (path content : String) : LoaderState :=
  { st with
    namespaces := extractNamespaces content st.namespaces
    triples := st.triples ++ [(path, content)]
    loaded_files := st.loaded_files ++ [path] }

/-- Embeds `RDFLoader.load_file` against a filesystem model: existence and
regular-file checks, read, optional syntax pre-validation, then the state
commit.  Read failures are wrapped into the base loader error as the
source's generic handler does. -/
def loadFile (fs : String → FsEntry) (validate : Bool) (st : LoaderState)
    (path : String) : LoaderState × Except LoaderErr Bool :=
  match fs path with
  | FsEntry.missing =>
    (st, Except.error (LoaderErr.fileNotFound ("File not found: " ++ path)))
  | FsEntry.notFile =>
    (st, Except.error (LoaderErr.fileNotFound ("Path is not a file: " ++ path)))
  | FsEntry.readFail =>
    (st, Except.error (LoaderErr.loaderErr ("Error loading file " ++ path)))
  | FsEntry.file content =>
    if validate then
      match validateTurtleSyntax content path with
      | some e => (st, Except.error (LoaderErr.turtleSyntax e))
      | none => (commitLoad st path content, Except.ok true)
    else (commitLoad st path content, Except.ok true)

/-- Whether `load_file` succeeds on a path: independent of the loader
state, it depends only on the filesystem and the validation flag. -/
def loadOk (fs : String → FsEntry) (validate : Bool) (path : String) : Bool :=
  match fs path with
  | FsEntry.file content => !validate || (validateTurtleSyntax content path).isNone
  | _ => false

/-- The loop of `RDFLoader.load_files`, accumulating the successful and
failed lists; on a failure with `continue_on_error` false the error
propagates with the state as mutated so far. -/
def loadFilesGo (fs : String → FsEntry) (validate continueOnError : Bool) :
    LoaderState → List String → List String → List String →
    LoaderState × Except LoaderErr (List String × List String)
  | st, [], succ, failed => (st, Except.ok (succ, failed))
  | st, p :: rest, succ, failed =>
    match loadFile fs validate st p with
    | (st2, Except.ok _) =>
      loadFilesGo fs validate continueOnError st2 rest (succ ++ [p]) failed
    | (st2, Except.error e) =>
      if continueOnError then
        loadFilesGo fs validate continueOnError st2 rest succ (failed ++ [p])
      else (st2, Except.error e)

/-- Embeds `RDFLoader.load_files`. -/
def loadFiles (fs : String → FsEntry) (validate continueOnError : Bool)
    (st : LoaderState) (paths : List String) :
    LoaderState × Except LoaderErr (List String × List String) :=
  loadFilesGo fs validate continueOnError st paths [] []

/-- The loader state after attempting each path in order. -/
def stateAfter (fs : String → FsEntry) (validate : Bool) (st : LoaderState)
    (paths : List String) : LoaderState :=
  paths.foldl (fun s p => (loadFile fs validate s p).1) st

/-- Helper: a path on which `load_file` succeeds yields `ok` from any
state. -/
theorem loadFile_ok_of_loadOk (fs : String → FsEntry) (v : Bool) (st : LoaderState)
    (p : String) (h : loadOk fs v p = true) :
    (loadFile fs v st p).2 = Except.ok true := by
  unfold loadOk at h
  unfold loadFile
  cases hfs : fs p
  case missing => rw [hfs] at h; simp at h
  case notFile => rw [hfs] at h; simp at h
  case readFail => rw [hfs] at h; simp at h
  case file content =>
    rw [hfs] at h
    dsimp only at h ⊢
    cases v with
    | false => rfl
    | true =>
      simp only [Bool.not_true, Bool.false_or, Option.isNone_iff_eq_none] at h
      simp [h]

/-- Helper: whenever `load_file` returns an error, the loader state it
returns is exactly the input state. -/
theorem loadFile_error_state (fs : String → FsEntry) (v : Bool) (st : LoaderState)
    (p : String) (e : LoaderErr) (h : (loadFile fs v st p).2 = Except.error e) :
    (loadFile fs v st p).1 = st := by
  unfold loadFile at h ⊢
  cases hfs : fs p
  case missing => rfl
  case notFile => rfl
  case readFail => rfl
  case file content =>
    rw [hfs] at h
    dsimp only at h ⊢
    cases v with
    | false => simp at h
    | true =>
      cases hvs : validateTurtleSyntax content p
      case none => rw [hvs] at h; simp at h
      case some e2 => simp [hvs]

/-- Helper: a path on which `load_file` fails yields an error and leaves
the state unchanged. -/
theorem loadFile_err_of_not_loadOk (fs : String → FsEntry) (v : Bool)
    (st : LoaderState) (p : String) (h : loadOk fs v p = false) :
    ∃ e, (loadFile fs v st p).2 = Except.error e ∧ (loadFile fs v st p).1 = st := by
  unfold loadOk at h
  unfold loadFile
  cases hfs : fs p
  case missing => exact ⟨_, rfl, rfl⟩
  case notFile => exact ⟨_, rfl, rfl⟩
  case readFail => exact ⟨_, rfl, rfl⟩
  case file content =>
    rw [hfs] at h
    dsimp only at h
    cases v with
    | false => simp at h
    | true =>
      simp only [Bool.not_true, Bool.false_or, Option.isNone_eq_false_iff,
        Option.isSome_iff_exists] at h
      obtain ⟨e2, hvs⟩ := h
      refine ⟨LoaderErr.turtleSyntax e2, ?_, ?_⟩ <;> simp [hvs]

/-- Helper: a run of `load_files` over a block of sources that all load
successfully advances the state through each of them, appends them to the
success list, and continues with the remaining sources. -/
theorem loadFilesGo_all_ok (fs : String → FsEntry) (v co : Bool) (pre : List String) :
    ∀ (st : LoaderState) (l succ failed : List String),
    (∀ g ∈ pre, loadOk fs v g = true) →
    loadFilesGo fs v co st (pre ++ l) succ failed =
      loadFilesGo fs v co (stateAfter fs v st pre) l (succ ++ pre) failed := by
  induction pre with
  | nil =>
    intro st l succ failed _
    simp [stateAfter]
  | cons p pre ih =>
    intro st l succ failed h
    have hp : loadOk fs v p = true := h p (List.mem_cons_self p pre)
    have h2 : (loadFile fs v st p).2 = Except.ok true := loadFile_ok_of_loadOk fs v st p hp
    rcases hres : loadFile fs v st p with ⟨st2, r⟩
    rw [hres] at h2
    dsimp only at h2
    subst h2
    have step : loadFilesGo fs v co st ((p :: pre) ++ l) succ failed =
        loadFilesGo fs v co st2 (pre ++ l) (succ ++ [p]) failed := by
      simp only [List.cons_append, loadFilesGo, hres]
      rfl
    have hstate : stateAfter fs v st (p :: pre) = stateAfter fs v st2 pre := by
      show stateAfter fs v (loadFile fs v st p).1 pre = stateAfter fs v st2 pre
      rw [hres]
    rw [step, ih _ _ _ _ (fun g hg => h g (List.mem_cons_of_mem p hg)), hstate,
      List.append_assoc]
    rfl

/-- Helper: with `continue_on_error` true, `load_files` visits every
source, committing the successes and collecting the failures. -/
theorem loadFilesGo_collect (fs : String → FsEntry) (v : Bool) (paths : List String) :
    ∀ (st : LoaderState) (succ failed : List String),
    loadFilesGo fs v true st paths succ failed =
      (stateAfter fs v st paths,
       Except.ok (succ ++ paths.filter (fun p => loadOk fs v p),
                  failed ++ paths.filter (fun p => !(loadOk fs v p)))) := by
  induction paths with
  | nil =>
    intro st succ failed
    simp [loadFilesGo, stateAfter]
  | cons p rest ih =>
    intro st succ failed
    cases hp : loadOk fs v p
    case true =>
      have h2 : (loadFile fs v st p).2 = Except.ok true :=
        loadFile_ok_of_loadOk fs v st p hp
      rcases hres : loadFile fs v st p with ⟨st2, r⟩
      rw [hres] at h2
      dsimp only at h2
      subst h2
      have step : loadFilesGo fs v true st (p :: rest) succ failed =
          loadFilesGo fs v true st2 rest (succ ++ [p]) failed := by
        simp only [loadFilesGo, hres]
      have hstate : stateAfter fs v st (p :: rest) = stateAfter fs v st2 rest := by
        show stateAfter fs v (loadFile fs v st p).1 rest = stateAfter fs v st2 rest
        rw [hres]
      rw [step, ih, hstate]
      simp [List.filter_cons, hp, List.append_assoc]
    case false =>
      obtain ⟨e, he, hst⟩ := loadFile_err_of_not_loadOk fs v st p hp
      rcases hres : loadFile fs v st p with ⟨st2, r⟩
      rw [hres] at he hst
      dsimp only at he hst
      subst he
      subst hst
      have step : loadFilesGo fs v true st2 (p :: rest) succ failed =
          loadFilesGo fs v true st2 rest succ (failed ++ [p]) := by
        simp only [loadFilesGo, hres, if_true]
      have hstate : stateAfter fs v st2 (p :: rest) = stateAfter fs v st2 rest := by
        show stateAfter fs v (loadFile fs v st2 p).1 rest = stateAfter fs v st2 rest
        rw [hres]
      rw [step, ih, hstate]
      simp [List.filter_cons, hp, List.append_assoc]

/-! ## Claim C6 -/

/-- C6: `load_files` loads sources in list order; with `continue_on_error`
false, the first failing source aborts the batch, propagating that
source's error while keeping every source loaded before it committed in
the state; with `continue_on_error` true, every failure is collected into
the returned failed list, loading continues, and the call returns the
success and failure lists. -/
theorem C6_load_files_batch :
    (∀ (fs : String → FsEntry) (v : Bool) (st : LoaderState)
        (pre : List String) (f : String) (rest : List String) (e : LoaderErr),
      (∀ g ∈ pre, loadOk fs v g = true) →
      (loadFile fs v (stateAfter fs v st pre) f).2 = Except.error e →
      loadFiles fs v false st (pre ++ f :: rest) =
        (stateAfter fs v st pre, Except.error e)) ∧
    (∀ (fs : String → FsEntry) (v : Bool) (st : LoaderState) (paths : List String),
      loadFiles fs v true st paths =
        (stateAfter fs v st paths,
         Except.ok (paths.filter (fun p => loadOk fs v p),
                    paths.filter (fun p => !(loadOk fs v p))))) := by
  constructor
  · intro fs v st pre f rest e hpre herr
    unfold loadFiles
    rw [loadFilesGo_all_ok fs v false pre st (f :: rest) [] [] hpre]
    have hst : (loadFile fs v (stateAfter fs v st pre) f).1 = stateAfter fs v st pre :=
      loadFile_error_state fs v (stateAfter fs v st pre) f e herr
    have hsplit : loadFile fs v (stateAfter fs v st pre) f =
        (stateAfter fs v st pre, Except.error e) := Prod.ext hst herr
    simp only [loadFilesGo, hsplit, Bool.false_eq_true, if_false]
  · intro fs v st paths
    unfold loadFiles
    rw [loadFilesGo_collect]
    simp

/-- Witness for C6: a concrete batch where `good.ttl` loads, `bad.ttl` is
missing, and `tail.ttl` is never reached when `continue_on_error` is
false. -/
theorem C6_load_files_batch_witness :
    loadFiles
        (fun p => if p = "good.ttl" then FsEntry.file "ex:a ex:b ex:c ." else FsEntry.missing)
        true false { } ["good.ttl", "bad.ttl", "tail.ttl"] =
      (stateAfter
        (fun p => if p = "good.ttl" then FsEntry.file "ex:a ex:b ex:c ." else FsEntry.missing)
        true { } ["good.ttl"],
       Except.error (LoaderErr.fileNotFound "File not found: bad.ttl")) := by
  exact C6_load_files_batch.1
    (fun p => if p = "good.ttl" then FsEntry.file "ex:a ex:b ex:c ." else FsEntry.missing)
    true { } ["good.ttl"] "bad.ttl" ["tail.ttl"]
    (LoaderErr.fileNotFound "File not found: bad.ttl")
    (by decide) (by decide)

/-! ## Claim C10 -/

/-- C10: `load_file` is atomic on error — whenever it returns an error
(missing path, non-file path, read failure, or a Turtle pre-validation
failure), the loader's observable state (triples, loaded files,
namespaces) is exactly what it was before the call. -/
theorem C10_load_file_atomic (fs : String → FsEntry) (v : Bool) (st : LoaderState)
    (p : String) (e : LoaderErr) (h : (loadFile fs v st p).2 = Except.error e) :
    (loadFile fs v st p).1 = st :=
  loadFile_error_state fs v st p e h

/-- Witness for C10: a missing file and a file with an invalid `@prefix`
line both leave a nonempty concrete state untouched. -/
theorem C10_load_file_atomic_witness :
    (loadFile (fun _ => FsEntry.missing) true
        { triples := [("f", "c")], loaded_files := ["f"],
          namespaces := [("ex", "http://e/")] } "a.ttl").1 =
      { triples := [("f", "c")], loaded_files := ["f"],
        namespaces := [("ex", "http://e/")] } ∧
    (loadFile (fun _ => FsEntry.file "@prefix ex: http://e/ .") true
        { triples := [("f", "c")], loaded_files := ["f"],
          namespaces := [("ex", "http://e/")] } "b.ttl").1 =
      { triples := [("f", "c")], loaded_files := ["f"],
        namespaces := [("ex", "http://e/")] } := by
  constructor
  · exact C10_load_file_atomic _ true _ "a.ttl"
      (LoaderErr.fileNotFound "File not found: a.ttl") (by decide)
  · exact C10_load_file_atomic _ true _ "b.ttl"
      (LoaderErr.turtleSyntax
        "Syntax error in b.ttl at line 1: Invalid @prefix declaration") (by decide)

/-! ## Claim C5 -/

/-- Filesystem fixture for the C5 scenario: `core.ttl` declares the `ex:`
namespace and one triple. -/
def coreFs : String → FsEntry := fun p =>
  if p = "core.ttl" then
    FsEntry.file "@prefix ex: <http://example.org/> .\nex:Alice a ex:Person ."
  else FsEntry.missing

/-- C5: after successfully loading `core.ttl` (which declares
`ex: <http://example.org/>`), `resolve_uri` expands `ex:Person` to
`http://example.org/Person`; in general it concatenates the registered
namespace IRI with the text after the first colon, raises `NamespaceError`
when the prefix before the first colon is not registered, and returns
colon-free inputs unchanged. -/
theorem C5_resolve_uri :
    (loadFile coreFs true { } "core.ttl").2 = Except.ok true ∧
    resolveUri (loadFile coreFs true { } "core.ttl").1.namespaces "ex:Person" =
      Except.ok "http://example.org/Person" ∧
    (∀ (ns : List (String × String)) (u : String),
      pyContainsChar u ':' = false → resolveUri ns u = Except.ok u) ∧
    (∀ (ns : List (String × String)) (u : String),
      pyContainsChar u ':' = true →
      lookupNs ns (splitFirstColon u).1 = none →
      resolveUri ns u = Except.error (LoaderErr.namespaceErr
        ("Undefined namespace prefix: " ++ (splitFirstColon u).1))) ∧
    (∀ (ns : List (String × String)) (u base : String),
      pyContainsChar u ':' = true →
      lookupNs ns (splitFirstColon u).1 = some base →
      resolveUri ns u = Except.ok (base ++ (splitFirstColon u).2)) := by
  refine ⟨by decide, by decide, ?_, ?_, ?_⟩
  · intro ns u h
    simp [resolveUri, h]
  · intro ns u h1 h2
    simp [resolveUri, h1, h2]
  · intro ns u base h1 h2
    simp [resolveUri, h1, h2]

/-- Witness for C5 at concrete namespace tables and inputs. -/
theorem C5_resolve_uri_witness :
    resolveUri [("ex", "http://example.org/")] "plainName" = Except.ok "plainName" ∧
    resolveUri [] "foo:bar" =
      Except.error (LoaderErr.namespaceErr "Undefined namespace prefix: foo") ∧
    resolveUri [("ex", "http://example.org/")] "ex:Alice" =
      Except.ok "http://example.org/Alice" := by
  refine ⟨?_, ?_, ?_⟩
  · exact C5_resolve_uri.2.2.1 [("ex", "http://example.org/")] "plainName" (by decide)
  · exact C5_resolve_uri.2.2.2.1 [] "foo:bar" (by decide) (by decide)
  · exact C5_resolve_uri.2.2.2.2 [("ex", "http://example.org/")] "ex:Alice"
      "http://example.org/" (by decide) (by decide)

/-! ## Claim C9 -/

/-- C9: every input containing a colon whose text before the first colon is
not a registered prefix makes `resolve_uri` raise `NamespaceError` — in
particular absolute IRIs (prefix read as `http`) and blank-node
identifiers (prefix read as `_`) when those prefixes are unregistered;
only colon-free inputs pass through unchanged. -/
theorem C9_resolve_uri_unregistered :
    (∀ (ns : List (String × String)) (u : String),
      pyContainsChar u ':' = true →
      lookupNs ns (splitFirstColon u).1 = none →
      ∃ msg, resolveUri ns u = Except.error (LoaderErr.namespaceErr msg)) ∧
    splitFirstColon "http://example.org/x" = ("http", "//example.org/x") ∧
    resolveUri [] "http://example.org/x" =
      Except.error (LoaderErr.namespaceErr "Undefined namespace prefix: http") ∧
    splitFirstColon "_:b1" = ("_", "b1") ∧
    resolveUri [] "_:b1" =
      Except.error (LoaderErr.namespaceErr "Undefined namespace prefix: _") ∧
    (∀ (ns : List (String × String)) (u : String),
      pyContainsChar u ':' = false → resolveUri ns u = Except.ok u) := by
  refine ⟨?_, by decide, by decide, by decide, by decide, ?_⟩
  · intro ns u h1 h2
    exact ⟨"Undefined namespace prefix: " ++ (splitFirstColon u).1,
      by simp [resolveUri, h1, h2]⟩
  · intro ns u h
    simp [resolveUri, h]

/-- Witness for C9: an unregistered prefix in a nonempty namespace table,
and a colon-free input. -/
theorem C9_resolve_uri_unregistered_witness :
    (∃ msg, resolveUri [("ex", "http://example.org/")] "unknown:x" =
      Except.error (LoaderErr.namespaceErr msg)) ∧
    resolveUri [("ex", "http://example.org/")] "b1" = Except.ok "b1" := by
  constructor
  · exact C9_resolve_uri_unregistered.1 [("ex", "http://example.org/")] "unknown:x"
      (by decide) (by decide)
  · exact C9_resolve_uri_unregistered.2.2.2.2.2 [("ex", "http://example.org/")] "b1"
      (by decide)
